import Mathlib

/-
Verification of the snap-lens-web-crawler resolution engine
(src/lib/crawler.js, src/lib/failure.js) via a shallow embedding.

JavaScript field values are modelled by `SnapLens.Value`; records (plain
JS objects such as lens items) are total functions from keys to values,
with `Value.undef` standing for an absent key.  Machine integers do not
occur (all JS numbers involved are small non-negative integers), so
`Nat`/`Int` are used directly.
-/

namespace SnapLens

/-- Model of a JavaScript value stored in a lens-record field. `undef`
stands for an absent property (reading a missing key yields undefined). -/
inductive Value where
  | undef
  | null
  | bool (b : Bool)
  | num (n : Int)
  | str (s : String)
  | list (xs : List Value)
  | map (kvs : List (String × Value))
deriving Repr

/-- Whether a value is `undefined`, i.e. the property is absent. -/
def isUndef : Value → Bool
  | .undef => true
  | _ => false

/-- JS truthiness: `!value` is true exactly for undefined, null, false,
0 and the empty string (NaN does not arise in the modelled fragment). -/
def jsFalsy : Value → Bool
  | .undef => true
  | .null => true
  | .bool b => !b
  | .num n => n == 0
  | .str s => s == ""
  | .list _ => false
  | .map _ => false

/-- Whether a value is the literal `false` (JS strict `value === false`). -/
def isLiteralFalse : Value → Bool
  | .bool false => true
  | _ => false

/-- The emptiness predicate of `SnapLensWebCrawler.mergeLensItems`
(crawler.js line 148):
`(!value && value !== false) || (Array.isArray(value) && value.length === 0)
 || (typeof value === 'object' && value !== null && Object.keys(value).length === 0)`.
Arrays and plain objects both have `typeof === 'object'`, so the third
disjunct also covers empty arrays. -/
def isEmpty (value : Value) : Bool :=
  (jsFalsy value && !(isLiteralFalse value))
  || (match value with | .list xs => xs.isEmpty | _ => false)
  || (match value with | .list xs => xs.isEmpty | .map kvs => kvs.isEmpty | _ => false)

/-- A record (plain JS object): a total map from property names to values,
`Value.undef` meaning the property is absent. -/
def Rec : Type := String → Value

/-- `SnapLensWebCrawler.mergeLensItems(primary, secondary)` (crawler.js
lines 147-163), expressed per key.  The spread `{ ...secondary, ...primary }`
takes `primary`'s value whenever the key is present in `primary`; the
subsequent loop overwrites any key whose `primary` value is empty while the
`secondary` value is non-empty.  Keys outside both records satisfy neither
condition, so the pointwise form agrees with the `for ... in merged` loop. -/
def mergeLensItems (primary secondary : Rec) : Rec :=
  fun key =>
    if isEmpty (primary key) && !(isEmpty (secondary key)) then secondary key
    else if isUndef (primary key) then secondary key else primary key

/-- Absent fields are empty. -/
theorem isEmpty_undef : isEmpty Value.undef = true := rfl

/-- A non-empty field is in particular present. -/
theorem isUndef_false_of_not_isEmpty {v : Value} (h : isEmpty v = false) :
    isUndef v = false := by
  cases v <;> simp_all [isEmpty, jsFalsy, isLiteralFalse, isUndef]

/-- C1 counterexample: the merge emptiness predicate classifies the number
`0` as empty (`!0` is true and `0 !== false` holds, so the first disjunct of
`isEmpty` fires), contradicting the claim that a field holding `0` is
classified as not empty. -/
theorem isEmpty_zero_counterexample : isEmpty (Value.num 0) = true := rfl

/-- C1 (amended): the emptiness predicate used by record merge classifies a
field value as empty if and only if it is absent, `null`, an empty string,
the number `0`, an empty list, or an empty map.  In particular `false` is
NOT empty, but `0` IS empty. -/
theorem isEmpty_characterization (v : Value) :
    isEmpty v = true ↔
      (v = Value.undef ∨ v = Value.null ∨ v = Value.str "" ∨ v = Value.num 0 ∨
        v = Value.list [] ∨ v = Value.map []) := by
  cases v with
  | undef => simp [isEmpty, jsFalsy, isLiteralFalse]
  | null => simp [isEmpty, jsFalsy, isLiteralFalse]
  | bool b => cases b <;> simp [isEmpty, jsFalsy, isLiteralFalse]
  | num n => simp [isEmpty, jsFalsy, isLiteralFalse]
  | str s => simp [isEmpty, jsFalsy, isLiteralFalse]
  | list xs => simp [isEmpty, jsFalsy, isLiteralFalse, List.isEmpty_iff]
  | map kvs => simp [isEmpty, jsFalsy, isLiteralFalse, List.isEmpty_iff]

/-- C2: for every pair of records, the merged record keeps every non-empty
field of the primary record, and back-fills from the secondary record every
field that is empty in the primary but non-empty in the secondary; when the
two records have disjoint non-empty fields, the merged record therefore
contains the union of both records' non-empty field values. -/
theorem mergeLensItems_spec (a b : Rec) :
    ((∀ k, isEmpty (a k) = true ∨ isEmpty (b k) = true) →
      ∀ k, (isEmpty (a k) = false → mergeLensItems a b k = a k) ∧
        (isEmpty (b k) = false → mergeLensItems a b k = b k)) ∧
    (∀ k, isEmpty (a k) = false → mergeLensItems a b k = a k) ∧
    (∀ k, isEmpty (a k) = true → isEmpty (b k) = false →
      mergeLensItems a b k = b k) := by
  have hPrim : ∀ k, isEmpty (a k) = false → mergeLensItems a b k = a k := by
    intro k h
    unfold mergeLensItems
    simp [h, isUndef_false_of_not_isEmpty h]
  have hBack : ∀ k, isEmpty (a k) = true → isEmpty (b k) = false →
      mergeLensItems a b k = b k := by
    intro k h1 h2
    unfold mergeLensItems
    simp [h1, h2]
  refine ⟨fun hdisj k => ⟨hPrim k, fun hb => ?_⟩, hPrim, hBack⟩
  rcases hdisj k with ha | hb2
  · exact hBack k ha hb
  · rw [hb] at hb2
    cases hb2

/-- A concrete record with a single non-empty field `x`. -/
def recX : Rec := fun k => if k = "x" then Value.str "a" else Value.undef

/-- A concrete record with a single non-empty field `y`. -/
def recY : Rec := fun k => if k = "y" then Value.str "b" else Value.undef

/-- C2 witness: instantiating the merge specification on two concrete
single-field records with disjoint non-empty fields. -/
theorem mergeLensItems_spec_witness :
    mergeLensItems recX recY "x" = recX "x" ∧
      mergeLensItems recX recY "y" = recY "y" :=
  ⟨(mergeLensItems_spec recX recY).2.1 "x" rfl,
    (mergeLensItems_spec recX recY).2.2 "y" rfl rfl⟩

/-- C3: merging a record with itself returns the record unchanged
(idempotence of `mergeLensItems`). -/
theorem mergeLensItems_idem (r : Rec) : mergeLensItems r r = r := by
  funext k
  show (if isEmpty (r k) && !(isEmpty (r k)) then r k
    else if isUndef (r k) then r k else r k) = r k
  rw [Bool.and_not_self]
  simp

/-- Entry of the JSON cache (crawler.js `#setJsonCache`): the decoded
payload together with the `Date.now()` timestamp at which it was stored. -/
structure CacheEntry where
  jsonObj : Value
  timestamp : Nat

/-- The `#jsonCache` map: fetch URL to cache entry (absent = not cached). -/
def JsonCache : Type := String → Option CacheEntry

/-- `SnapLensWebCrawler.#setJsonCache(url, jsonObj)` (crawler.js lines
806-813) evaluated at time `now`: stores the entry only when `#cacheTTL`
is non-zero (a zero TTL disables caching). -/
def setJsonCache (cacheTTL : Nat) (cache : JsonCache) (url : String)
    (jsonObj : Value) (now : Nat) : JsonCache :=
  if cacheTTL ≠ 0 then
    fun u => if u = url then some ⟨jsonObj, now⟩ else cache u
  else cache

/-- `SnapLensWebCrawler.#getJsonCache(url)` (crawler.js lines 815-828)
evaluated at time `now`: returns the cached payload while the entry is
fresh, and lazily deletes the entry (returning absent) once
`now - entry.timestamp >= cacheTTL`.  The result is the returned value
paired with the cache state after the call. -/
def getJsonCache (cacheTTL : Nat) (cache : JsonCache) (url : String)
    (now : Nat) : Option Value × JsonCache :=
  if cacheTTL ≠ 0 then
    match cache url with
    | some cacheEntry =>
      if cacheTTL ≤ now - cacheEntry.timestamp then
        (none, fun u => if u = url then none else cache u)
      else (some cacheEntry.jsonObj, cache)
    | none => (none, cache)
  else (none, cache)

/-- C4: with a positive TTL, after `set(k, v)` at time `T` a `get(k)`
strictly before `T + ttl` returns `v`; a `get(k)` at or after `T + ttl`
returns absent and deletes the entry (so the entry is gone from the
resulting cache and every later `get(k)` on it returns absent), lazily and
independently of the periodic sweep. -/
theorem jsonCache_ttl_spec (cacheTTL : Nat) (cache : JsonCache) (k : String)
    (v : Value) (T t1 t2 : Nat) (httl : 0 < cacheTTL)
    (h1 : t1 < T + cacheTTL) (h2 : T + cacheTTL ≤ t2) :
    (getJsonCache cacheTTL (setJsonCache cacheTTL cache k v T) k t1).1 =
      some v ∧
    (getJsonCache cacheTTL (setJsonCache cacheTTL cache k v T) k t2).1 =
      none ∧
    (getJsonCache cacheTTL (setJsonCache cacheTTL cache k v T) k t2).2 k =
      none ∧
    (∀ t, (getJsonCache cacheTTL
      ((getJsonCache cacheTTL (setJsonCache cacheTTL cache k v T) k t2).2)
      k t).1 = none) := by
  have hne : cacheTTL ≠ 0 := Nat.pos_iff_ne_zero.mp httl
  have hset : setJsonCache cacheTTL cache k v T k = some ⟨v, T⟩ := by
    unfold setJsonCache
    simp [hne]
  refine ⟨?_, ?_, ?_, ?_⟩
  · unfold getJsonCache
    simp only [hne, if_true, ne_eq, not_false_iff, ite_true, hset]
    rw [if_neg (by omega)]
  · unfold getJsonCache
    simp only [hne, ne_eq, not_false_iff, ite_true, hset]
    rw [if_pos (by omega)]
  · unfold getJsonCache
    simp only [hne, ne_eq, not_false_iff, ite_true, hset]
    rw [if_pos (by omega)]
    simp
  · intro t
    unfold getJsonCache
    simp only [hne, ne_eq, not_false_iff, ite_true, hset]
    rw [if_pos (by omega)]
    simp [hne]

/-- C4 witness: the TTL property instantiated on a concrete cache with
TTL 5, an entry stored at time 10, and reads at times 14 and 15. -/
theorem jsonCache_ttl_spec_witness :
    (getJsonCache 5 (setJsonCache 5 (fun _ => none) "k" (Value.str "v") 10)
      "k" 14).1 = some (Value.str "v") ∧
    (getJsonCache 5 (setJsonCache 5 (fun _ => none) "k" (Value.str "v") 10)
      "k" 15).1 = none :=
  ⟨(jsonCache_ttl_spec 5 (fun _ => none) "k" (Value.str "v") 10 14 15
      (by omega) (by omega) (by omega)).1,
    (jsonCache_ttl_spec 5 (fun _ => none) "k" (Value.str "v") 10 14 15
      (by omega) (by omega) (by omega)).2.1⟩

/-- The failure taxonomy of src/lib/failure.js, restricted to the classes
constructed by the code paths modelled here.  Each request-class failure
carries the `previous` failure it wraps (the retry chain); the aggregate
failure is only ever constructed with `url`/`previous` undefined, so those
fields are omitted from its constructor. -/
inductive CrawlerFailure where
  | base (message : String) (url : String) (previous : Option CrawlerFailure)
  | aggregate (failures : List CrawlerFailure) (message : String)
  | invalidUrl (message : String) (url : String)
  | requestError (message : String) (url : String)
      (previous : Option CrawlerFailure)
  | requestTimeout (message : String) (url : String)
      (previous : Option CrawlerFailure)
  | httpStatus (message : String) (code : Nat) (url : String)
      (previous : Option CrawlerFailure)
  | notFound (message : String) (code : Nat) (url : String)
      (previous : Option CrawlerFailure)
deriving Repr

/-- Outcome of one `fetch` attempt inside `#request`: a successful
(`response.ok`) response, a non-ok HTTP status (which raises
`HTTPStatusError`), an abort by the connection timeout (`AbortError`),
or any other thrown error. -/
inductive FetchOutcome where
  | ok
  | status (code : Nat)
  | abort
  | err (message : String)
deriving Repr, DecidableEq

/-- The per-failure-class retry options of `#request` (crawler.js line
721) with their default values: not-found is not retried by default, all
other classes are. -/
structure RequestOptions where
  retryNotFound : Bool := false
  retryFailed : Bool := true
  retryTimeout : Bool := true
  retryError : Bool := true
deriving Repr

/-- Message of `HTTPStatusError` (error.js): `HTTP Status <code>`. -/
def httpStatusMessage (code : Nat) : String := s!"HTTP Status {code}"

/-- The failure constructed by the catch block of `#request` for one
failed attempt, wrapping the previously accumulated failure. -/
def mkRequestFailure (oc : FetchOutcome) (url : String)
    (prev : Option CrawlerFailure) : CrawlerFailure :=
  match oc with
  | .ok => .base "Unexpected" url prev
  | .status code =>
    if code = 404 then .notFound (httpStatusMessage code) code url prev
    else .httpStatus (httpStatusMessage code) code url prev
  | .abort => .requestTimeout "This operation was aborted" url prev
  | .err m => .requestError m url prev

/-- Whether `#request` retries after a given failed attempt, per failure
class (crawler.js lines 758-792). -/
def shouldRetry (opts : RequestOptions) (oc : FetchOutcome) : Bool :=
  match oc with
  | .ok => false
  | .status code => if code = 404 then opts.retryNotFound else opts.retryFailed
  | .abort => opts.retryTimeout
  | .err _ => opts.retryError

/-- The `while (attempt <= maxAttempts)` loop of `#request` (crawler.js
lines 736-801).  `fetchOutcome i` is the outcome of the fetch performed on
attempt `i`; `fuel` is the number of attempts still allowed
(`maxAttempts - attempt + 1`); `acc` is the accumulated failure chain.
The result is the number of the last attempt performed paired with either
a successful response (`Unit`) or the returned failure.  Sleeps and
host-pacing timestamps have no bearing on the returned value and are not
modelled. -/
def requestLoop (fetchOutcome : Nat → FetchOutcome) (opts : RequestOptions)
    (url : String) : Nat → Nat → Option CrawlerFailure →
    Nat × Except CrawlerFailure Unit
  | 0, attempt, acc =>
    (attempt - 1, .error (acc.getD (.base "Unexpected" url none)))
  | fuel + 1, attempt, acc =>
    let oc := fetchOutcome attempt
    if oc = .ok then (attempt, .ok ())
    else
      let fail := mkRequestFailure oc url acc
      if shouldRetry opts oc then
        match fuel with
        | 0 => (attempt, .error fail)
        | f + 1 => requestLoop fetchOutcome opts url (f + 1) (attempt + 1)
            (some fail)
      else (attempt, .error fail)

/-- `SnapLensWebCrawler.#request(url, method, options)` (crawler.js lines
721-804) for a URL whose hostname parses: `maxAttempts` is
`maxRequestRetries + 1` and the attempt counter starts at 1. -/
def request (fetchOutcome : Nat → FetchOutcome) (opts : RequestOptions)
    (url : String) (maxRequestRetries : Nat) :
    Nat × Except CrawlerFailure Unit :=
  requestLoop fetchOutcome opts url (maxRequestRetries + 1) 1 none

/-- The chain of `n` HTTP-status-500 failures produced by `n` consecutive
failed attempts, each wrapping the previous one as its cause. -/
def chain500 (url : String) : Nat → Option CrawlerFailure
  | 0 => none
  | n + 1 =>
    some (.httpStatus (httpStatusMessage 500) 500 url (chain500 url n))

/-- Unfolding lemma: on an endless stream of 500 responses with default
options, the loop spends all its fuel and returns the accumulated chain. -/
theorem requestLoop_all500 (f : Nat → FetchOutcome) (url : String)
    (h : ∀ i, f i = .status 500) :
    ∀ n attempt kPrev,
      requestLoop f {} url (n + 1) attempt (chain500 url kPrev) =
        (attempt + n, .error (.httpStatus (httpStatusMessage 500)
          500 url (chain500 url (kPrev + n)))) := by
  intro n
  induction n with
  | zero =>
    intro attempt kPrev
    unfold requestLoop
    rw [h attempt]
    simp [mkRequestFailure, shouldRetry]
  | succ m ih =>
    intro attempt kPrev
    unfold requestLoop
    rw [h attempt]
    simp only [mkRequestFailure, shouldRetry]
    norm_num
    rw [show (some (CrawlerFailure.httpStatus (httpStatusMessage 500) 500
      url (chain500 url kPrev))) = chain500 url (kPrev + 1) from rfl]
    rw [ih (attempt + 1) (kPrev + 1)]
    have h1 : attempt + 1 + m = attempt + (m + 1) := by omega
    have h2 : kPrev + 1 + m = kPrev + (m + 1) := by omega
    rw [h1, h2]
    simp

/-- C5: with default retry options, a request that always receives a 404
performs exactly one attempt and returns the not-found failure unretried,
while a request that always receives a 500 performs exactly
`maxRequestRetries + 1` attempts and returns the accumulated HTTP-status
failure in which each retry's failure wraps the prior failure as its
cause. -/
theorem request_retry_spec (f404 f500 : Nat → FetchOutcome) (url : String)
    (maxRequestRetries : Nat) (h4 : ∀ i, f404 i = .status 404)
    (h5 : ∀ i, f500 i = .status 500) :
    request f404 {} url maxRequestRetries =
      (1, .error (.notFound (httpStatusMessage 404) 404 url none)) ∧
    request f500 {} url maxRequestRetries =
      (maxRequestRetries + 1, .error (.httpStatus (httpStatusMessage 500)
        500 url (chain500 url maxRequestRetries))) := by
  constructor
  · unfold request requestLoop
    rw [h4 1]
    simp [mkRequestFailure, shouldRetry]
  · unfold request
    rw [show (none : Option CrawlerFailure) = chain500 url 0 from rfl]
    rw [requestLoop_all500 f500 url h5 maxRequestRetries 1 0]
    rw [show (0 + maxRequestRetries) = maxRequestRetries from by omega]
    rw [show (1 + maxRequestRetries) = maxRequestRetries + 1 from by omega]

/-- C5 witness: the retry specification instantiated with constant 404 and
constant 500 fetch outcomes and `maxRequestRetries = 2`. -/
theorem request_retry_spec_witness :
    request (fun _ => .status 404) {} "u" 2 =
      (1, .error (.notFound (httpStatusMessage 404) 404 "u" none)) ∧
    request (fun _ => .status 500) {} "u" 2 =
      (3, .error (.httpStatus (httpStatusMessage 500) 500 "u"
        (chain500 "u" 2))) :=
  request_retry_spec (fun _ => .status 404) (fun _ => .status 500) "u" 2
    (fun _ => rfl) (fun _ => rfl)

/-- Snapshots before this date will not work (crawler.js line 42). -/
def SNAPSHOT_THRESHOLD_MIN : Nat := 20220101000000

/-- Snapshots from 2025 will not work (crawler.js line 45). -/
def SNAPSHOT_THRESHOLD_MAX : Nat := 20241231235959

/-- Decimal value of a digit sequence. -/
def digitsToNat (acc : Nat) : List Char → Nat
  | [] => acc
  | c :: cs => digitsToNat (acc * 10 + (c.toNat - 48)) cs

/-- JS `parseInt(s) || 0` on a timestamp string: the longest leading digit
prefix as a number, or 0 when there is none (`NaN || 0`).  Leading
whitespace and sign handling of `parseInt` are not needed for archive
timestamps and are not modelled. -/
def jsParseIntOr0 (s : String) : Nat :=
  let ds := s.toList.takeWhile Char.isDigit
  if ds.isEmpty then 0 else digitsToNat 0 ds

/-- The `archived_snapshots.closest` object of the availability response
(fields may be empty strings, which are falsy). -/
structure ClosestSnapshot where
  url : String
  timestamp : String

/-- The decoded `archived_snapshots` object: `closest` may be absent. -/
structure ArchivedSnapshots where
  closest : Option ClosestSnapshot

/-- The `ArchivedSnapshot` value class (crawler.js lines 915-920): resolved
snapshot URL plus the human-readable date string. -/
structure ArchivedSnapshot where
  url : String
  date : String
deriving Repr

/-- Return type of `#queryArchivedSnapshot`: either an `ArchivedSnapshot`
or a `CrawlerFailure`.  The code has no third, NotFound-style outcome. -/
inductive SnapshotQueryResult where
  | snap (s : ArchivedSnapshot)
  | failure (f : CrawlerFailure)
deriving Repr

/-- `SnapLensWebCrawler.#queryArchivedSnapshot(url)` (crawler.js lines
560-589) applied to the already-fetched availability response. `fetched`
is the outcome of `#getJsonFromUrl(apiUrl, "archived_snapshots")`;
`urlValid` abstracts whether `new URL(closest.url)` parses (its
`toString()` normalization is taken as the identity); `toDateString`
abstracts `#archiveTimestampToDateString`; `apiUrl` is the availability
query URL the failures refer to. -/
def queryArchivedSnapshot (fetched : Except CrawlerFailure ArchivedSnapshots)
    (urlValid : String → Bool) (toDateString : Nat → String)
    (apiUrl : String) : SnapshotQueryResult :=
  match fetched with
  | .error f => .failure f
  | .ok result =>
    match result.closest with
    | none => .failure (.base "Snapshot does not exist" apiUrl none)
    | some closest =>
      if closest.url = "" || closest.timestamp = "" then
        .failure (.base "Snapshot does not exist" apiUrl none)
      else
        let snapshotTime := jsParseIntOr0 closest.timestamp
        if snapshotTime < SNAPSHOT_THRESHOLD_MIN ||
            SNAPSHOT_THRESHOLD_MAX < snapshotTime then
          .failure (.base "Snapshot exists but does not match criteria"
            apiUrl none)
        else if urlValid closest.url then
          .snap ⟨closest.url, toDateString snapshotTime⟩
        else .failure (.base "Invalid URL" apiUrl none)

/-- The ordered candidate URL patterns tried by
`getLensByArchivedSnapshot` (crawler.js lines 321-324). -/
def snapshotCandidateUrls (hash : String) : List String :=
  [s!"lens.snapchat.com/{hash}*", s!"snapchat.com/lens/{hash}*"]

/-- The candidate loop of `getLensByArchivedSnapshot` (crawler.js lines
326-360).  `snapQuery` gives the outcome of `#queryArchivedSnapshot` for a
target URL pattern; `getSingleLens` the outcome of `#getSingleLens` on a
snapshot URL; `fix` is `#fixArchiveUrlPrefixes` (a string rewrite on every
field, abstracted as a record transformer).  The `instanceof
ArchivedSnapshot` guard of the source cannot fail here because
`SnapshotQueryResult` is a binary sum.  Alongside the JS return value the
model also returns the list of archived-page URLs that were fetched, in
order.  On success the source attaches the snapshot to the record
(`lens.snapshot = snapshot`); the model returns the record paired with the
snapshot. -/
def getLensByArchivedSnapshotLoop (snapQuery : String → SnapshotQueryResult)
    (getSingleLens : String → Except CrawlerFailure Rec) (fix : Rec → Rec)
    (hash : String) :
    List String → Rec → List CrawlerFailure → List String →
    Except CrawlerFailure (Rec × ArchivedSnapshot) × List String
  | [], _lens, failures, fetched =>
    (.error (.aggregate failures s!"Failed to get snapshot for: {hash}"),
      fetched)
  | targetUrl :: rest, lens, failures, fetched =>
    match snapQuery targetUrl with
    | .failure f =>
      getLensByArchivedSnapshotLoop snapQuery getSingleLens fix hash rest
        lens (failures ++ [f]) fetched
    | .snap snapshot =>
      match getSingleLens snapshot.url with
      | .error f =>
        getLensByArchivedSnapshotLoop snapQuery getSingleLens fix hash rest
          lens (failures ++ [f]) (fetched ++ [snapshot.url])
      | .ok snapshotLens =>
        if jsFalsy (mergeLensItems (fix snapshotLens) lens "lens_url") then
          getLensByArchivedSnapshotLoop snapQuery getSingleLens fix hash
            rest (mergeLensItems (fix snapshotLens) lens)
            (failures ++ [.base "Snapshot exists but has no lens URL"
              targetUrl none])
            (fetched ++ [snapshot.url])
        else ((.ok (mergeLensItems (fix snapshotLens) lens, snapshot)),
          fetched ++ [snapshot.url])

/-- `SnapLensWebCrawler.getLensByArchivedSnapshot(hash)` (crawler.js lines
320-361): runs the candidate loop starting from an empty accumulator
record and no collected failures. -/
def getLensByArchivedSnapshot (snapQuery : String → SnapshotQueryResult)
    (getSingleLens : String → Except CrawlerFailure Rec) (fix : Rec → Rec)
    (hash : String) :
    Except CrawlerFailure (Rec × ArchivedSnapshot) × List String :=
  getLensByArchivedSnapshotLoop snapQuery getSingleLens fix hash
    (snapshotCandidateUrls hash) (fun _ => Value.undef) [] []

/-- C6 counterexample: when the availability response has no
`closest` snapshot, and when the snapshot timestamp falls below the
minimum threshold, `#queryArchivedSnapshot` returns a plain
`CrawlerFailure` value — there is no NotFound outcome distinct from a
Failure value in its return type. -/
theorem queryArchivedSnapshot_notFound_counterexample :
    queryArchivedSnapshot (.ok ⟨none⟩) (fun _ => true) (fun _ => "")
        "api" =
      .failure (.base "Snapshot does not exist" "api" none) ∧
    queryArchivedSnapshot
        (.ok ⟨some ⟨"https://web.archive.org/web/20100101000000/x",
          "20100101000000"⟩⟩) (fun _ => true) (fun _ => "") "api" =
      .failure (.base "Snapshot exists but does not match criteria" "api"
        none) :=
  ⟨rfl, rfl⟩

/-- C6 (amended): when the availability response carries no
`closest.url`/`closest.timestamp`, or when the snapshot timestamp falls
outside `[SNAPSHOT_THRESHOLD_MIN, SNAPSHOT_THRESHOLD_MAX]`, the resolver
returns a generic `CrawlerFailure` (messages `Snapshot does not exist`
and `Snapshot exists but does not match criteria` respectively) — not an
outcome distinct from a Failure value — and in neither case is the
archived page fetched. -/
theorem queryArchivedSnapshot_amended :
    (∀ (urlValid : String → Bool) (toDateString : Nat → String)
      (apiUrl : String),
      queryArchivedSnapshot (.ok ⟨none⟩) urlValid toDateString apiUrl =
        .failure (.base "Snapshot does not exist" apiUrl none)) ∧
    (∀ (urlValid : String → Bool) (toDateString : Nat → String)
      (apiUrl : String) (c : ClosestSnapshot),
      c.url = "" ∨ c.timestamp = "" →
      queryArchivedSnapshot (.ok ⟨some c⟩) urlValid toDateString apiUrl =
        .failure (.base "Snapshot does not exist" apiUrl none)) ∧
    (∀ (urlValid : String → Bool) (toDateString : Nat → String)
      (apiUrl : String) (c : ClosestSnapshot),
      c.url ≠ "" → c.timestamp ≠ "" →
      (jsParseIntOr0 c.timestamp < SNAPSHOT_THRESHOLD_MIN ∨
        SNAPSHOT_THRESHOLD_MAX < jsParseIntOr0 c.timestamp) →
      queryArchivedSnapshot (.ok ⟨some c⟩) urlValid toDateString apiUrl =
        .failure (.base "Snapshot exists but does not match criteria"
          apiUrl none)) ∧
    (∀ (snapQuery : String → SnapshotQueryResult)
      (getSingleLens : String → Except CrawlerFailure Rec)
      (fix : Rec → Rec) (hash : String),
      (∀ t, ∃ fl, snapQuery t = .failure fl) →
      (getLensByArchivedSnapshot snapQuery getSingleLens fix hash).2 =
        []) := by
  refine ⟨?_, ?_, ?_, ?_⟩
  · intro urlValid toDateString apiUrl
    rfl
  · intro urlValid toDateString apiUrl c hc
    unfold queryArchivedSnapshot
    rcases hc with hc | hc <;> simp [hc]
  · intro urlValid toDateString apiUrl c hu ht hrange
    unfold queryArchivedSnapshot
    simp only [hu, ht]
    rw [if_neg (by simp [hu, ht])]
    rw [if_pos (by rcases hrange with hr | hr <;> simp [hr])]
  · intro snapQuery getSingleLens fix hash hfail
    unfold getLensByArchivedSnapshot
    unfold snapshotCandidateUrls
    unfold getLensByArchivedSnapshotLoop
    obtain ⟨f1, h1⟩ := hfail s!"lens.snapchat.com/{hash}*"
    rw [h1]
    unfold getLensByArchivedSnapshotLoop
    obtain ⟨f2, h2⟩ := hfail s!"snapchat.com/lens/{hash}*"
    rw [h2]
    unfold getLensByArchivedSnapshotLoop
    rfl

/-- C6 witness: the amended snapshot-resolution behaviour instantiated on
concrete responses: a response with an empty `closest.url`, a response one
second before the minimum threshold, and an always-failing snapshot
query. -/
theorem queryArchivedSnapshot_amended_witness :
    queryArchivedSnapshot (.ok ⟨some ⟨"", "20230601000000"⟩⟩)
        (fun _ => true) (fun _ => "") "api" =
      .failure (.base "Snapshot does not exist" "api" none) ∧
    queryArchivedSnapshot (.ok ⟨some ⟨"https://a", "20211231235959"⟩⟩)
        (fun _ => true) (fun _ => "") "api" =
      .failure (.base "Snapshot exists but does not match criteria" "api"
        none) ∧
    (getLensByArchivedSnapshot
        (fun t => .failure (.base "Snapshot does not exist" t none))
        (fun _ => .ok (fun _ => Value.undef)) (fun r => r) "h").2 = [] :=
  ⟨queryArchivedSnapshot_amended.2.1 (fun _ => true) (fun _ => "") "api"
      ⟨"", "20230601000000"⟩ (Or.inl rfl),
    queryArchivedSnapshot_amended.2.2.1 (fun _ => true) (fun _ => "")
      "api" ⟨"https://a", "20211231235959"⟩ (by simp) (by simp)
      (Or.inl (by decide)),
    queryArchivedSnapshot_amended.2.2.2
      (fun t => .failure (.base "Snapshot does not exist" t none))
      (fun _ => .ok (fun _ => Value.undef)) (fun r => r) "h"
      (fun t => ⟨.base "Snapshot does not exist" t none, rfl⟩)⟩

/-- A concrete extracted record carrying lens fields but no artifact URL:
`lens_name` is set, `lens_url` is absent. -/
def partialSnapshotRec : Rec :=
  fun k => if k = "lens_name" then Value.str "Test" else Value.undef

/-- C7 counterexample: with both snapshot candidates resolving and both
page fetches yielding a record that has fields (`lens_name = "Test"`) but
no artifact URL, `getLensByArchivedSnapshot` returns an aggregate failure
and discards the partially assembled record — it does not return the best
assembled record with failure metadata. -/
theorem getLensByArchivedSnapshot_partial_counterexample :
    getLensByArchivedSnapshot
        (fun _ => .snap ⟨"https://web.archive.org/web/20230601000000/s",
          "Thu Jun 01 2023"⟩)
        (fun _ => .ok partialSnapshotRec) (fun r => r) "h" =
      (.error (.aggregate
          [.base "Snapshot exists but has no lens URL"
            "lens.snapchat.com/h*" none,
          .base "Snapshot exists but has no lens URL"
            "snapchat.com/lens/h*" none]
          "Failed to get snapshot for: h"),
        ["https://web.archive.org/web/20230601000000/s",
          "https://web.archive.org/web/20230601000000/s"]) := rfl

/-- The candidate loop either exhausts its candidates and returns the
aggregate failure, or returns a record whose `lens_url` is truthy. -/
theorem getLensByArchivedSnapshotLoop_result
    (snapQuery : String → SnapshotQueryResult)
    (getSingleLens : String → Except CrawlerFailure Rec) (fix : Rec → Rec)
    (hash : String) :
    ∀ (targets : List String) (lens : Rec)
      (failures : List CrawlerFailure) (fetched : List String),
      (∃ fs, (getLensByArchivedSnapshotLoop snapQuery getSingleLens fix
          hash targets lens failures fetched).1 =
        .error (.aggregate fs s!"Failed to get snapshot for: {hash}")) ∨
      (∃ r s, (getLensByArchivedSnapshotLoop snapQuery getSingleLens fix
          hash targets lens failures fetched).1 = .ok (r, s) ∧
        jsFalsy (r "lens_url") = false) := by
  intro targets
  induction targets with
  | nil =>
    intro lens failures fetched
    exact Or.inl ⟨failures, rfl⟩
  | cons t rest ih =>
    intro lens failures fetched
    unfold getLensByArchivedSnapshotLoop
    split
    · exact ih _ _ _
    · split
      · exact ih _ _ _
      · split
        · exact ih _ _ _
        · rename_i hcond
          exact Or.inr ⟨_, _, rfl, by simpa using hcond⟩

/-- C7 (amended): `getLensByArchivedSnapshot` either returns an aggregate
failure wrapping the collected per-candidate failures (when no candidate
ever produced a record with a non-empty artifact URL — any partially
assembled record is then discarded, not returned), or returns the
assembled record together with its snapshot, in which case the record's
`lens_url` is non-empty (truthy). -/
theorem getLensByArchivedSnapshot_amended
    (snapQuery : String → SnapshotQueryResult)
    (getSingleLens : String → Except CrawlerFailure Rec) (fix : Rec → Rec)
    (hash : String) :
    (∃ fs, (getLensByArchivedSnapshot snapQuery getSingleLens fix
        hash).1 =
      .error (.aggregate fs s!"Failed to get snapshot for: {hash}")) ∨
    (∃ r s, (getLensByArchivedSnapshot snapQuery getSingleLens fix
        hash).1 = .ok (r, s) ∧ jsFalsy (r "lens_url") = false) :=
  getLensByArchivedSnapshotLoop_result snapQuery getSingleLens fix hash
    (snapshotCandidateUrls hash) (fun _ => Value.undef) [] []

/-- JS `a || b` on strings: `b` when `a` is the (falsy) empty string. -/
def jsOr (a b : String) : String := if a = "" then b else a

/-- Prefix test on character lists (JS `String.prototype.startsWith`). -/
def listStartsWith : List Char → List Char → Bool
  | _, [] => true
  | [], _ :: _ => false
  | c :: cs, p :: ps => c = p && listStartsWith cs ps

/-- JS `s.startsWith(p)`. -/
def strStartsWith (s p : String) : Bool := listStartsWith s.toList p.toList

/-- Split a character list on a separator (keeping empty segments). -/
def splitOnChar (sep : Char) : List Char → List (List Char)
  | [] => [[]]
  | c :: cs =>
    match splitOnChar sep cs with
    | [] => if c = sep then [[], []] else [[c]]
    | r :: rs => if c = sep then [] :: r :: rs else (c :: r) :: rs

/-- Everything after the first occurrence of a character, if any. -/
def afterFirstChar (sep : Char) : List Char → Option (List Char)
  | [] => none
  | c :: cs => if c = sep then some cs else afterFirstChar sep cs

/-- `new URL(url).searchParams.get(key)`: the value of the first query
parameter named `key` (query = text between the first `?` and any `#`;
pairs split on `&`, a pair split at its first `=`; a key without `=`
yields the empty string).  Percent-decoding is not modelled: the uuid
values concerned are plain hex. -/
def getQueryParam (url key : String) : Option String :=
  match afterFirstChar (Char.ofNat 63) url.toList with
  | none => none
  | some q =>
    ((splitOnChar (Char.ofNat 38) (q.takeWhile (fun c => c ≠ (Char.ofNat 35)))).findSome?
      fun pair =>
        if pair.takeWhile (fun c => c ≠ (Char.ofNat 61)) = key.toList then
          some (String.mk ((pair.dropWhile (fun c => c ≠ (Char.ofNat 61))).drop 1))
        else none)

/-- The strict pattern `/^[a-f0-9]{32}$/gi`: exactly 32 hex characters,
case-insensitively. -/
def isHex32 (s : String) : Bool :=
  s.toList.length = 32 && s.toList.all fun c =>
    (Char.ofNat 48 ≤ c && c ≤ Char.ofNat 57) ||
    (Char.ofNat 97 ≤ c && c ≤ Char.ofNat 102) ||
    (Char.ofNat 65 ≤ c && c ≤ Char.ofNat 70)

/-- `SnapLensWebCrawler.extractUuidFromDeeplink(deeplink)` (crawler.js
lines 246-258): for a non-empty string starting with one of the two
accepted unlock-URL prefixes, the `uuid` query parameter is returned when
it matches the strict 32-hex pattern; every other case yields the empty
string (including an absent parameter, whose `null` never matches the
pattern). -/
def extractUuidFromDeeplink (deeplink : String) : String :=
  if deeplink ≠ "" &&
      (strStartsWith deeplink "https://www.snapchat.com/unlock/?" ||
        strStartsWith deeplink "https://snapchat.com/unlock/?") then
    match getQueryParam deeplink "uuid" with
    | some u => if isHex32 u then u else ""
    | none => ""
  else ""

/-- `SnapLensWebCrawler.profileUrl(username)` (crawler.js lines 225-230). -/
def profileUrl (username : String) : String :=
  if username ≠ "" then s!"https://www.snapchat.com/add/{username}" else ""

/-- `SnapLensWebCrawler.snapcodeUrl(uuid)` (crawler.js lines 232-237). -/
def snapcodeUrl (uuid : String) : String :=
  if uuid ≠ "" then
    s!"https://app.snapchat.com/web/deeplink/snapcode?data={uuid}&version=1&type=png"
  else ""

/-- `SnapLensWebCrawler.deeplinkUrl(uuid)` (crawler.js lines 239-244). -/
def deeplinkUrl (uuid : String) : String :=
  if uuid ≠ "" then
    s!"https://snapchat.com/unlock/?type=SNAPCODE&uuid={uuid}&metadata=01"
  else ""

/-- `SnapLensWebCrawler.normalizeTimestamp(ts)` (crawler.js lines
260-262): second-resolution epochs are scaled to milliseconds. -/
def normalizeTimestamp (ts : Nat) : Nat :=
  if ts < 1000000000000 then ts * 1000 else ts

/-- The `thumbnailSequence` sub-object of a source lens item (numeric
fields already as numbers; `parseInt(...) || 0` is the identity there). -/
structure ThumbnailSequence where
  urlPattern : String := ""
  numThumbnails : Nat := 0
  animationIntervalMs : Nat := 0

/-- The `lensResource` sub-object of a source lens item (an unlock
source); `lastUpdated = 0` models an absent/falsy value. -/
structure LensResource where
  archiveLink : String := ""
  signature : String := ""
  checkSum : String := ""
  lastUpdated : Nat := 0

/-- A source lens item as read by `formatLensItem`: exactly the fields the
function accesses.  String fields use `""` for absent values (JS `||`
treats both identically); `creatorTitle` stands for `creator?.title`. -/
structure LensItem where
  scannableUuid : String := ""
  deeplinkUrl : String := ""
  unlockUrl : String := ""
  lensId : String := ""
  id : String := ""
  lensName : String := ""
  name : String := ""
  lensCreatorSearchTags : List String := []
  lensCreatorDisplayName : String := ""
  creatorTitle : String := ""
  creatorName : String := ""
  lensCreatorUsername : String := ""
  userProfileUrl : String := ""
  creatorUserId : String := ""
  creatorProfileId : String := ""
  snapcodeUrl : String := ""
  iconUrl : String := ""
  thumbnailUrl : String := ""
  previewImageUrl : String := ""
  lensPreviewImageUrl : String := ""
  previewVideoUrl : String := ""
  lensPreviewVideoUrl : String := ""
  thumbnailSequence : Option ThumbnailSequence := none
  lensResource : Option LensResource := none
  lastUpdatedEpoch : Nat := 0

/-- The options object of `formatLensItem` (crawler.js line 166). -/
structure FormatOptions where
  obfuscatedSlug : String := ""
  userName : String := ""
  hash : String := ""
  unlockableId : String := ""

/-- `SnapLensWebCrawler.formatLensItem(lensItem, options)` (crawler.js
lines 165-223) as a record: each key of the constructed object literal,
including the conditional `image_sequence` block and the conditional
unlock fields added by `Object.assign` when `lensResource` is present.
Keys never written are absent (`Value.undef`). -/
def formatLensItem (lensItem : LensItem) (options : FormatOptions) : Rec :=
  fun key =>
    match key with
    | "unlockable_id" =>
      .str (jsOr (jsOr lensItem.lensId lensItem.id) options.unlockableId)
    | "uuid" =>
      .str (jsOr (jsOr lensItem.scannableUuid
        (extractUuidFromDeeplink
          (jsOr lensItem.deeplinkUrl lensItem.unlockUrl))) options.hash)
    | "deeplink" =>
      .str (jsOr (jsOr lensItem.deeplinkUrl lensItem.unlockUrl)
        (deeplinkUrl (jsOr (jsOr lensItem.scannableUuid
          (extractUuidFromDeeplink
            (jsOr lensItem.deeplinkUrl lensItem.unlockUrl)))
          options.hash)))
    | "snapcode_url" =>
      .str (jsOr lensItem.snapcodeUrl
        (snapcodeUrl (jsOr (jsOr lensItem.scannableUuid
          (extractUuidFromDeeplink
            (jsOr lensItem.deeplinkUrl lensItem.unlockUrl)))
          options.hash)))
    | "lens_name" => .str (jsOr lensItem.lensName lensItem.name).trim
    | "lens_creator_search_tags" =>
      .list (lensItem.lensCreatorSearchTags.map Value.str)
    | "lens_status" => .str "Live"
    | "user_display_name" =>
      .str (jsOr (jsOr lensItem.lensCreatorDisplayName
        lensItem.creatorTitle) lensItem.creatorName).trim
    | "user_name" => .str (jsOr lensItem.lensCreatorUsername options.userName)
    | "user_profile_url" =>
      .str (jsOr lensItem.userProfileUrl
        (profileUrl (jsOr lensItem.lensCreatorUsername options.userName)))
    | "user_id" => .str lensItem.creatorUserId
    | "user_profile_id" => .str lensItem.creatorProfileId
    | "obfuscated_user_slug" => .str options.obfuscatedSlug
    | "icon_url" => .str lensItem.iconUrl
    | "thumbnail_media_url" =>
      .str (jsOr (jsOr lensItem.thumbnailUrl lensItem.previewImageUrl)
        lensItem.lensPreviewImageUrl)
    | "thumbnail_media_poster_url" =>
      .str (jsOr (jsOr lensItem.thumbnailUrl lensItem.previewImageUrl)
        lensItem.lensPreviewImageUrl)
    | "standard_media_url" =>
      .str (jsOr lensItem.previewVideoUrl lensItem.lensPreviewVideoUrl)
    | "image_sequence" =>
      match lensItem.thumbnailSequence with
      | some ts =>
        .map [("url_pattern", .str ts.urlPattern),
          ("size", .num ts.numThumbnails),
          ("frame_interval_ms", .num ts.animationIntervalMs)]
      | none => .map []
    | "hint_id" => .str ""
    | "additional_hint_ids" => .map []
    | "lens_id" =>
      match lensItem.lensResource with
      | some _ =>
        .str (jsOr (jsOr lensItem.lensId lensItem.id) options.unlockableId)
      | none => .undef
    | "lens_url" =>
      match lensItem.lensResource with
      | some lr => .str lr.archiveLink
      | none => .undef
    | "signature" =>
      match lensItem.lensResource with
      | some lr => .str lr.signature
      | none => .undef
    | "sha256" =>
      match lensItem.lensResource with
      | some lr => .str lr.checkSum
      | none => .undef
    | "last_updated" =>
      match lensItem.lensResource with
      | some lr =>
        if lr.lastUpdated ≠ 0 then .num (normalizeTimestamp lr.lastUpdated)
        else if lensItem.lastUpdatedEpoch ≠ 0 then
          .num (normalizeTimestamp lensItem.lastUpdatedEpoch)
        else .str ""
      | none => .undef
    | _ => Value.undef

/-- The `uuid` field of a formatted record is the three-way precedence
`scannableUuid || extractUuidFromDeeplink(deeplinkUrl || unlockUrl) ||
hash || ""`. -/
theorem formatLensItem_uuid (lensItem : LensItem) (options : FormatOptions) :
    formatLensItem lensItem options "uuid" =
      .str (jsOr (jsOr lensItem.scannableUuid
        (extractUuidFromDeeplink
          (jsOr lensItem.deeplinkUrl lensItem.unlockUrl))) options.hash) :=
  rfl

/-- C8: record construction derives `uuid` with the fixed precedence
explicit identifier → identifier parsed from a well-formed deeplink URL
(accepted only when it matches the strict 32-hex pattern,
case-insensitively) → caller-supplied fallback hash; in particular an item
whose only identifying information is a deeplink with `uuid=<32-hex>`
yields exactly that 32-hex substring (either case). -/
theorem formatLensItem_uuid_spec :
    (∀ (item : LensItem) (opts : FormatOptions), item.scannableUuid ≠ "" →
      formatLensItem item opts "uuid" = .str item.scannableUuid) ∧
    (∀ (item : LensItem) (opts : FormatOptions), item.scannableUuid = "" →
      extractUuidFromDeeplink (jsOr item.deeplinkUrl item.unlockUrl) ≠ "" →
      formatLensItem item opts "uuid" =
        .str (extractUuidFromDeeplink
          (jsOr item.deeplinkUrl item.unlockUrl))) ∧
    (∀ (item : LensItem) (opts : FormatOptions), item.scannableUuid = "" →
      extractUuidFromDeeplink (jsOr item.deeplinkUrl item.unlockUrl) = "" →
      formatLensItem item opts "uuid" = .str opts.hash) ∧
    (∀ d, extractUuidFromDeeplink d = "" ∨
      isHex32 (extractUuidFromDeeplink d) = true) ∧
    (formatLensItem { deeplinkUrl :=
        "https://www.snapchat.com/unlock/?type=SNAPCODE&uuid=0a1b2c3d4e5f60718293a4b5c6d7e8f9&metadata=01" }
        {} "uuid" = .str "0a1b2c3d4e5f60718293a4b5c6d7e8f9") ∧
    (formatLensItem { deeplinkUrl :=
        "https://www.snapchat.com/unlock/?type=SNAPCODE&uuid=0A1B2C3D4E5F60718293A4B5C6D7E8F9&metadata=01" }
        {} "uuid" = .str "0A1B2C3D4E5F60718293A4B5C6D7E8F9") := by
  have jsOr_empty_left : ∀ b : String, jsOr "" b = b := fun b => rfl
  have jsOr_ne : ∀ (a b : String), a ≠ "" → jsOr a b = a := by
    intro a b h
    unfold jsOr
    rw [if_neg h]
  refine ⟨?_, ?_, ?_, ?_, rfl, rfl⟩
  · intro item opts h
    rw [formatLensItem_uuid, jsOr_ne _ _ h, jsOr_ne _ _ h]
  · intro item opts h1 h2
    rw [formatLensItem_uuid, h1, jsOr_empty_left, jsOr_ne _ _ h2]
  · intro item opts h1 h2
    rw [formatLensItem_uuid, h1, jsOr_empty_left, h2, jsOr_empty_left]
  · intro d
    unfold extractUuidFromDeeplink
    split
    · split
      · split
        · rename_i hhex
          exact Or.inr hhex
        · exact Or.inl rfl
      · exact Or.inl rfl
    · exact Or.inl rfl

/-- C8 witness: the precedence rules instantiated on concrete items — an
explicit identifier wins, and with neither an explicit identifier nor a
usable deeplink the fallback hash is used. -/
theorem formatLensItem_uuid_spec_witness :
    formatLensItem { scannableUuid := "aaa" } {} "uuid" = .str "aaa" ∧
    formatLensItem { lensName := "x" } { hash := "fallback" } "uuid" =
      .str "fallback" :=
  ⟨formatLensItem_uuid_spec.1 { scannableUuid := "aaa" } {} (by simp),
    formatLensItem_uuid_spec.2.2.1 { lensName := "x" } { hash := "fallback" }
      rfl rfl⟩

/-- `SnapLensWebCrawler.#getLensesByCreator(obfuscatedSlug, offset,
limit)` (crawler.js lines 433-450) applied to the decoded `lensesList`
supplied by `fetchPage offset limit`: the requested page size is capped at
`Math.min(100, limit)`; items missing `lensId`, `deeplinkUrl`, `name` or
`creatorName` are filtered out and the rest formatted.  (`retryNotFound`
affects only transport retries, which are below this oracle.) -/
def getLensesByCreatorPage
    (fetchPage : Nat → Nat → Except CrawlerFailure (List LensItem))
    (obfuscatedSlug : String) (offset limit : Nat) :
    Except CrawlerFailure (List Rec) :=
  match fetchPage offset (min 100 limit) with
  | .error f => .error f
  | .ok lensesList =>
    .ok ((lensesList.filter fun item =>
        item.lensId != "" && item.deeplinkUrl != "" && item.name != "" &&
          item.creatorName != "").map
      fun item => formatLensItem item { obfuscatedSlug := obfuscatedSlug })

/-- The `for (let offset = 0; offset < maxLenses; offset += 100)` loop of
`getLensesByCreator` (crawler.js lines 276-293): each iteration requests
`limit = Math.min(maxLenses - offset, 100)` records, stops on a failure,
and stops after appending a page that returned fewer than 100 records.
Alongside the collected records the model returns the trace of
`(offset, limit)` pairs actually requested. -/
def getLensesByCreatorLoop
    (fetchPage : Nat → Nat → Except CrawlerFailure (List LensItem))
    (slug : String) (maxLenses offset : Nat) (lenses : List Rec)
    (trace : List (Nat × Nat)) : List Rec × List (Nat × Nat) :=
  if _h : offset < maxLenses then
    match getLensesByCreatorPage fetchPage slug offset
        (min (maxLenses - offset) 100) with
    | .error _ =>
      (lenses, trace ++ [(offset, min 100 (min (maxLenses - offset) 100))])
    | .ok result =>
      if result.length < 100 then
        (lenses ++ result,
          trace ++ [(offset, min 100 (min (maxLenses - offset) 100))])
      else
        getLensesByCreatorLoop fetchPage slug maxLenses (offset + 100)
          (lenses ++ result)
          (trace ++ [(offset, min 100 (min (maxLenses - offset) 100))])
  else (lenses, trace)
termination_by maxLenses - offset
decreasing_by omega

/-- `SnapLensWebCrawler.getLensesByCreator(obfuscatedSlug, maxLenses)`
(crawler.js lines 276-293); the source's default for `maxLenses` is
1000. -/
def getLensesByCreator
    (fetchPage : Nat → Nat → Except CrawlerFailure (List LensItem))
    (slug : String) (maxLenses : Nat) : List Rec × List (Nat × Nat) :=
  getLensesByCreatorLoop fetchPage slug maxLenses 0 [] []

/-- Every request issued by the creator-pagination loop asks for at most
100 records, at a 100-aligned offset below the caller's maximum. -/
theorem getLensesByCreatorLoop_trace
    (fetchPage : Nat → Nat → Except CrawlerFailure (List LensItem))
    (slug : String) (maxLenses : Nat) :
    ∀ (n offset : Nat) (lenses : List Rec) (trace : List (Nat × Nat)),
      maxLenses - offset ≤ n → offset % 100 = 0 →
      (∀ p ∈ trace, p.2 ≤ 100 ∧ p.1 < maxLenses ∧ p.1 % 100 = 0) →
      ∀ p ∈ (getLensesByCreatorLoop fetchPage slug maxLenses offset lenses
        trace).2, p.2 ≤ 100 ∧ p.1 < maxLenses ∧ p.1 % 100 = 0 := by
  intro n
  induction n with
  | zero =>
    intro offset lenses trace hn hmod ht p hp
    unfold getLensesByCreatorLoop at hp
    rw [dif_neg (by omega)] at hp
    exact ht p hp
  | succ m ih =>
    intro offset lenses trace hn hmod ht p hp
    unfold getLensesByCreatorLoop at hp
    by_cases hof : offset < maxLenses
    · rw [dif_pos hof] at hp
      have htr : ∀ q ∈ trace ++
          [(offset, min 100 (min (maxLenses - offset) 100))],
          q.2 ≤ 100 ∧ q.1 < maxLenses ∧ q.1 % 100 = 0 := by
        intro q hq
        rcases List.mem_append.mp hq with hq | hq
        · exact ht q hq
        · simp only [List.mem_singleton] at hq
          subst hq
          exact ⟨Nat.min_le_left 100 _, hof, hmod⟩
      split at hp
      · exact htr p hp
      · split at hp
        · exact htr p hp
        · exact ih (offset + 100) _ _ (by omega) (by omega) htr p hp
    · rw [dif_neg hof] at hp
      exact ht p hp

/-- C9: the by-creator lookup paginates in pages of at most 100 records
via 100-aligned offsets below the caller's maximum; and in the scenario
where the endpoint yields exactly 100 well-formed items at offset 0 and 0
items at offset 100, `getLensesByCreator(slug, 1000)` issues exactly the
two requests `(offset 0, limit 100)` and `(offset 100, limit 100)` and
returns 100 records. -/
theorem getLensesByCreator_pagination
    (fetchPage : Nat → Nat → Except CrawlerFailure (List LensItem))
    (slug : String) (maxLenses : Nat) (items : List LensItem)
    (hlen : items.length = 100)
    (hwf : ∀ item ∈ items, (item.lensId != "" && item.deeplinkUrl != "" &&
      item.name != "" && item.creatorName != "") = true)
    (h0 : fetchPage 0 100 = .ok items)
    (h100 : fetchPage 100 100 = .ok []) :
    (∀ p ∈ (getLensesByCreator fetchPage slug maxLenses).2,
      p.2 ≤ 100 ∧ p.1 < maxLenses ∧ p.1 % 100 = 0) ∧
    (getLensesByCreator fetchPage slug 1000).2 = [(0, 100), (100, 100)] ∧
    (getLensesByCreator fetchPage slug 1000).1.length = 100 := by
  have hfilter : items.filter (fun item => item.lensId != "" &&
      item.deeplinkUrl != "" && item.name != "" &&
      item.creatorName != "") = items := List.filter_eq_self.mpr hwf
  have hpage0 : getLensesByCreatorPage fetchPage slug 0
      (min (1000 - 0) 100) =
      .ok (items.map fun item =>
        formatLensItem item { obfuscatedSlug := slug }) := by
    unfold getLensesByCreatorPage
    rw [show min 100 (min (1000 - 0) 100) = 100 from by norm_num, h0]
    simp [hfilter]
  have hpage100 : getLensesByCreatorPage fetchPage slug 100
      (min (1000 - 100) 100) = .ok [] := by
    unfold getLensesByCreatorPage
    rw [show min 100 (min (1000 - 100) 100) = 100 from by norm_num, h100]
    rfl
  have hrun : getLensesByCreator fetchPage slug 1000 =
      ((items.map fun item =>
        formatLensItem item { obfuscatedSlug := slug }),
        [(0, 100), (100, 100)]) := by
    unfold getLensesByCreator
    unfold getLensesByCreatorLoop
    rw [dif_pos (by omega : (0:Nat) < 1000), hpage0]
    simp only [List.length_map, hlen, Nat.lt_irrefl, if_false]
    unfold getLensesByCreatorLoop
    rw [dif_pos (by omega : (100:Nat) < 1000), hpage100]
    norm_num
  refine ⟨?_, ?_, ?_⟩
  · exact getLensesByCreatorLoop_trace fetchPage slug maxLenses maxLenses
      0 [] [] (by omega) (by omega) (by intro p hp; cases hp)
  · rw [hrun]
  · rw [hrun]
    simp [hlen]

/-- A concrete well-formed creator item for the pagination witness. -/
def creatorItemW : LensItem :=
  { lensId := "1", deeplinkUrl := "d", name := "n", creatorName := "c" }

/-- A concrete creator endpoint: 100 well-formed items at offset 0,
nothing afterwards. -/
def creatorFetchW : Nat → Nat → Except CrawlerFailure (List LensItem) :=
  fun o _ => if o = 0 then .ok (List.replicate 100 creatorItemW) else .ok []

/-- C9 witness: the pagination specification instantiated on the concrete
endpoint: two requests, 100 records. -/
theorem getLensesByCreator_pagination_witness :
    (getLensesByCreator creatorFetchW "s" 1000).2 =
      [(0, 100), (100, 100)] ∧
    (getLensesByCreator creatorFetchW "s" 1000).1.length = 100 :=
  ⟨(getLensesByCreator_pagination creatorFetchW "s" 1000
      (List.replicate 100 creatorItemW) (by simp)
      (by
        intro item hitem
        rw [List.eq_of_mem_replicate hitem]
        rfl)
      rfl rfl).2.1,
    (getLensesByCreator_pagination creatorFetchW "s" 1000
      (List.replicate 100 creatorItemW) (by simp)
      (by
        intro item hitem
        rw [List.eq_of_mem_replicate hitem]
        rfl)
      rfl rfl).2.2⟩

/-- The `uuid` string computed by `formatLensItem` (the key used by the
top-lenses `Map`). -/
def formatUuid (lensItem : LensItem) (options : FormatOptions) : String :=
  jsOr (jsOr lensItem.scannableUuid
    (extractUuidFromDeeplink (jsOr lensItem.deeplinkUrl lensItem.unlockUrl)))
    options.hash

/-- The formatted record's `uuid` field is exactly `formatUuid`. -/
theorem formatLensItem_uuid_key (lensItem : LensItem)
    (options : FormatOptions) :
    formatLensItem lensItem options "uuid" =
      .str (formatUuid lensItem options) := rfl

/-- Outcome of one `#crawlJsonFromUrl(..., "props.pageProps", ...)` call
inside `#getTopLenses`, indexed by the running fetch count: a
`CrawlerNotFoundFailure`, any other failure or a response without a
non-empty `topLenses` array (`badProps`), or a page of lenses with its
`hasMore`/`nextCursorId` cursor data. -/
inductive TopPageResult where
  | notFound
  | badProps
  | page (topLenses : List LensItem) (hasMore : Bool) (nextCursorId : String)

/-- The slice step of `#getTopLenses` (crawler.js lines 489-492): when the
page would overshoot `maxLenses`, only the remaining number of items is
kept. -/
def topLensesNewBatch (maxLenses : Nat) (lenses : List (String × Rec))
    (topLenses : List LensItem) : List LensItem :=
  if maxLenses < lenses.length + topLenses.length then
    topLenses.take (maxLenses - lenses.length)
  else topLenses

/-- The `newLenses.forEach` step of `#getTopLenses` (crawler.js lines
494-499): formatted lenses are inserted into the uuid-keyed map only when
the uuid is not yet present (first record wins); the map is modelled as an
insertion-ordered association list. -/
def topLensesInsert (lensDefaults : FormatOptions)
    (lenses : List (String × Rec)) (newLenses : List LensItem) :
    List (String × Rec) :=
  newLenses.foldl (fun acc newLens =>
    if acc.any fun kv => kv.1 == formatUuid newLens lensDefaults then acc
    else acc ++ [(formatUuid newLens lensDefaults,
      formatLensItem newLens lensDefaults)]) lenses

/-- Slice-then-insert, as performed for each fetched page. -/
def topLensesAdd (lensDefaults : FormatOptions) (maxLenses : Nat)
    (lenses : List (String × Rec)) (topLenses : List LensItem) :
    List (String × Rec) :=
  topLensesInsert lensDefaults lenses
    (topLensesNewBatch maxLenses lenses topLenses)

/-- The `while (lenses.size < maxLenses)` cursor loop of `#getTopLenses`
(crawler.js lines 479-518) for one locale.  `page` gives the outcome of
the crawl with the given fetch count (the cursor/locale/web-id URL
parameters and spoofed headers determine the response and are absorbed
into this oracle); `cursors` is the set of cursor ids seen in this locale
(insertion order kept); the loop continues to the next page only when the
page reports more data with a fresh cursor id and fewer than
`cursorLimit` cursors have been recorded.  A repeated cursor id breaks
out of the loop (after cache invalidation and a delay, which have no
bearing on the result).  Returns the map and the updated fetch count. -/
def topLensesInner (page : Nat → TopPageResult)
    (lensDefaults : FormatOptions) (maxLenses cursorLimit : Nat)
    (lenses : List (String × Rec)) (cursors : List String) (step : Nat) :
    List (String × Rec) × Nat :=
  if lenses.length < maxLenses then
    match page step with
    | .notFound => (lenses, step + 1)
    | .badProps => (lenses, step + 1)
    | .page topLenses hasMore nextCursorId =>
      if topLenses.isEmpty then (lenses, step + 1)
      else if hstop : hasMore = false ∨ nextCursorId = "" ∨
          cursorLimit ≤ cursors.length then
        (topLensesAdd lensDefaults maxLenses lenses topLenses, step + 1)
      else if cursors.contains nextCursorId then
        (topLensesAdd lensDefaults maxLenses lenses topLenses, step + 1)
      else
        topLensesInner page lensDefaults maxLenses cursorLimit
          (topLensesAdd lensDefaults maxLenses lenses topLenses)
          (cursors ++ [nextCursorId]) (step + 1)
  else (lenses, step)
termination_by cursorLimit - cursors.length
decreasing_by
  simp only [not_or, not_le] at hstop
  simp only [List.length_append, List.length_singleton]
  omega

/-- The `for (const locale of locales)` loop of `#getTopLenses`
(crawler.js lines 466-523): per locale the cursor set is reset and the
cursor loop run; the rotation stops once the map has reached `maxLenses`
or is still empty. -/
def topLensesOuter (page : Nat → TopPageResult)
    (lensDefaults : FormatOptions) (maxLenses cursorLimit : Nat) :
    List String → List (String × Rec) → Nat → List (String × Rec) × Nat
  | [], lenses, step => (lenses, step)
  | _locale :: rest, lenses, step =>
    match topLensesInner page lensDefaults maxLenses cursorLimit lenses []
      step with
    | (lenses2, step2) =>
      if maxLenses ≤ lenses2.length ∨ lenses2.length = 0 then
        (lenses2, step2)
      else topLensesOuter page lensDefaults maxLenses cursorLimit rest
        lenses2 step2

/-- `SnapLensWebCrawler.#getTopLenses(url, maxLenses, lensDefaults)`
(crawler.js lines 452-529): the maximum is normalized to 10000 unless it
is a positive integer (non-integers do not arise in the `Int` model), the
cursor cap is 50, and the result is `Array.from(lenses.values())`.
`locales` stands for the shuffled `TOP_LOCALES` list. -/
def getTopLenses (page : Nat → TopPageResult)
    (lensDefaults : FormatOptions) (maxLenses : Int)
    (locales : List String) : List Rec :=
  ((topLensesOuter page lensDefaults
      (if 0 < maxLenses then maxLenses.toNat else 10000) 50 locales []
      0).1).map Prod.snd

/-- Invariant of the uuid-keyed map: keys are distinct and each stored
record's `uuid` field is its key. -/
def UuidKeyed (lenses : List (String × Rec)) : Prop :=
  (lenses.map Prod.fst).Nodup ∧
    ∀ kv ∈ lenses, kv.2 "uuid" = Value.str kv.1

/-- Inserting a batch preserves the map invariant and adds at most the
batch length. -/
theorem topLensesInsert_inv (lensDefaults : FormatOptions)
    (newLenses : List LensItem) :
    ∀ lenses, UuidKeyed lenses →
      UuidKeyed (topLensesInsert lensDefaults lenses newLenses) ∧
      (topLensesInsert lensDefaults lenses newLenses).length ≤
        lenses.length + newLenses.length := by
  induction newLenses with
  | nil =>
    intro lenses h
    exact ⟨h, Nat.le_add_right _ _⟩
  | cons b bs ih =>
    intro lenses h
    have hstep : topLensesInsert lensDefaults lenses (b :: bs) =
        topLensesInsert lensDefaults
          (if lenses.any fun kv => kv.1 == formatUuid b lensDefaults then
            lenses
          else lenses ++ [(formatUuid b lensDefaults,
            formatLensItem b lensDefaults)]) bs := by
      unfold topLensesInsert
      rw [List.foldl_cons]
    rw [hstep]
    by_cases hmem : (lenses.any fun kv => kv.1 == formatUuid b lensDefaults) = true
    · rw [if_pos hmem]
      obtain ⟨h1, h2⟩ := ih lenses h
      exact ⟨h1, by simpa using Nat.le_succ_of_le h2⟩
    · rw [if_neg hmem]
      have hnotin : formatUuid b lensDefaults ∉ lenses.map Prod.fst := by
        intro hin
        apply hmem
        rw [List.any_eq_true]
        obtain ⟨kv, hkv, hfst⟩ := List.mem_map.mp hin
        exact ⟨kv, hkv, by rw [hfst]; exact beq_self_eq_true _⟩
      have hkeyed : UuidKeyed (lenses ++ [(formatUuid b lensDefaults,
          formatLensItem b lensDefaults)]) := by
        constructor
        · rw [List.map_append]
          apply List.Nodup.append h.1 (List.nodup_singleton _)
          simp only [List.disjoint_singleton]
          simpa using hnotin
        · intro kv hkv
          rcases List.mem_append.mp hkv with hkv | hkv
          · exact h.2 kv hkv
          · simp only [List.mem_singleton] at hkv
            subst hkv
            exact formatLensItem_uuid_key b lensDefaults
      obtain ⟨h1, h2⟩ := ih _ hkeyed
      refine ⟨h1, ?_⟩
      calc (topLensesInsert lensDefaults (lenses ++
            [(formatUuid b lensDefaults,
              formatLensItem b lensDefaults)]) bs).length
          ≤ (lenses ++ [(formatUuid b lensDefaults,
              formatLensItem b lensDefaults)]).length + bs.length := h2
        _ ≤ lenses.length + (b :: bs).length := by
            simp [List.length_append]
            omega

/-- Slice-then-insert keeps the invariant and never exceeds the cap. -/
theorem topLensesAdd_inv (lensDefaults : FormatOptions)
    (maxLenses : Nat) (lenses : List (String × Rec))
    (topLenses : List LensItem) (h : UuidKeyed lenses)
    (hlt : lenses.length < maxLenses) :
    UuidKeyed (topLensesAdd lensDefaults maxLenses lenses topLenses) ∧
    (topLensesAdd lensDefaults maxLenses lenses topLenses).length ≤
      maxLenses := by
  unfold topLensesAdd
  obtain ⟨h1, h2⟩ := topLensesInsert_inv lensDefaults
    (topLensesNewBatch maxLenses lenses topLenses) lenses h
  refine ⟨h1, le_trans h2 ?_⟩
  unfold topLensesNewBatch
  by_cases hover : maxLenses < lenses.length + topLenses.length
  · rw [if_pos hover]
    simp only [List.length_take]
    omega
  · rw [if_neg hover]
    omega

/-- The cursor loop preserves the map invariant and the size cap. -/
theorem topLensesInner_inv (page : Nat → TopPageResult)
    (lensDefaults : FormatOptions) (maxLenses cursorLimit : Nat) :
    ∀ (n : Nat) (cursors : List String) (lenses : List (String × Rec))
      (step : Nat), cursorLimit - cursors.length ≤ n →
      UuidKeyed lenses → lenses.length ≤ maxLenses →
      UuidKeyed (topLensesInner page lensDefaults maxLenses cursorLimit
        lenses cursors step).1 ∧
      (topLensesInner page lensDefaults maxLenses cursorLimit lenses
        cursors step).1.length ≤ maxLenses := by
  intro n
  induction n with
  | zero =>
    intro cursors lenses step hn hk hl
    unfold topLensesInner
    split
    · rename_i hlt
      split
      · exact ⟨hk, hl⟩
      · exact ⟨hk, hl⟩
      · split
        · exact ⟨hk, hl⟩
        · rw [dif_pos (Or.inr (Or.inr (by omega)))]
          exact topLensesAdd_inv lensDefaults maxLenses lenses _ hk hlt
    · exact ⟨hk, hl⟩
  | succ m ih =>
    intro cursors lenses step hn hk hl
    unfold topLensesInner
    split
    · rename_i hlt
      split
      · exact ⟨hk, hl⟩
      · exact ⟨hk, hl⟩
      · split
        · exact ⟨hk, hl⟩
        · split
          · exact topLensesAdd_inv lensDefaults maxLenses lenses _ hk hlt
          · rename_i hstop
            split
            · exact topLensesAdd_inv lensDefaults maxLenses lenses _ hk hlt
            · simp only [not_or, not_le] at hstop
              obtain ⟨hadd1, hadd2⟩ :=
                topLensesAdd_inv lensDefaults maxLenses lenses _ hk hlt
              exact ih _ _ _
                (by simp only [List.length_append, List.length_singleton]
                    omega) hadd1 hadd2
    · exact ⟨hk, hl⟩

/-- The locale rotation preserves the map invariant and the size cap. -/
theorem topLensesOuter_inv (page : Nat → TopPageResult)
    (lensDefaults : FormatOptions) (maxLenses cursorLimit : Nat) :
    ∀ (locales : List String) (lenses : List (String × Rec)) (step : Nat),
      UuidKeyed lenses → lenses.length ≤ maxLenses →
      UuidKeyed (topLensesOuter page lensDefaults maxLenses cursorLimit
        locales lenses step).1 ∧
      (topLensesOuter page lensDefaults maxLenses cursorLimit locales
        lenses step).1.length ≤ maxLenses := by
  intro locales
  induction locales with
  | nil =>
    intro lenses step hk hl
    exact ⟨hk, hl⟩
  | cons l rest ih =>
    intro lenses step hk hl
    obtain ⟨hk2, hl2⟩ := topLensesInner_inv page lensDefaults maxLenses
      cursorLimit cursorLimit [] lenses step (by omega) hk hl
    unfold topLensesOuter
    split
    rename_i lenses2 step2 heq
    rw [heq] at hk2 hl2
    split
    · exact ⟨hk2, hl2⟩
    · exact ih lenses2 step2 hk2 hl2

/-- C10: every list returned by the top-lenses worker has pairwise
distinct `uuid` field values (the uuid-keyed map keeps the first record
seen per uuid), and its length never exceeds the caller's maximum when
that maximum is a positive integer, nor 10000 otherwise. -/
theorem getTopLenses_spec (page : Nat → TopPageResult)
    (lensDefaults : FormatOptions) (maxLenses : Int)
    (locales : List String) :
    ((getTopLenses page lensDefaults maxLenses locales).map
      (fun r => r "uuid")).Nodup ∧
    (0 < maxLenses →
      (getTopLenses page lensDefaults maxLenses locales).length ≤
        maxLenses.toNat) ∧
    (¬ 0 < maxLenses →
      (getTopLenses page lensDefaults maxLenses locales).length ≤
        10000) := by
  have hbase : UuidKeyed ([] : List (String × Rec)) :=
    ⟨List.nodup_nil, by intro kv hkv; cases hkv⟩
  have key : ∀ m : Nat,
      (((topLensesOuter page lensDefaults m 50 locales [] 0).1.map
        Prod.snd).map (fun r => r "uuid")).Nodup ∧
      ((topLensesOuter page lensDefaults m 50 locales [] 0).1.map
        Prod.snd).length ≤ m := by
    intro m
    obtain ⟨⟨hnd, hkeys⟩, hlen⟩ := topLensesOuter_inv page lensDefaults m
      50 locales [] 0 hbase (by simp)
    constructor
    · rw [List.map_map]
      rw [show List.map ((fun r => r "uuid") ∘ Prod.snd)
          (topLensesOuter page lensDefaults m 50 locales [] 0).1 =
        List.map (fun kv => Value.str kv.1)
          (topLensesOuter page lensDefaults m 50 locales [] 0).1 from
        List.map_congr_left (fun kv hkv => hkeys kv hkv)]
      rw [show ((topLensesOuter page lensDefaults m 50 locales [] 0).1.map
          fun kv => Value.str kv.1) =
        ((topLensesOuter page lensDefaults m 50 locales [] 0).1.map
          Prod.fst).map Value.str from by rw [List.map_map]; rfl]
      exact List.Nodup.map (fun a b hab => Value.str.inj hab) hnd
    · rw [List.length_map]
      exact hlen
  unfold getTopLenses
  refine ⟨(key _).1, fun hpos => ?_, fun hneg => ?_⟩
  · have h := (key (if 0 < maxLenses then maxLenses.toNat else 10000)).2
    rw [if_pos hpos] at h ⊢
    exact h
  · have h := (key (if 0 < maxLenses then maxLenses.toNat else 10000)).2
    rw [if_neg hneg] at h ⊢
    exact h

/-- C10 witness: the invariants instantiated on a concrete worker run
with maximum 5 and an endpoint that always reports unusable page data. -/
theorem getTopLenses_spec_witness :
    (0 : Int) < 5 ∧
    (getTopLenses (fun _ => .badProps) {} 5 ["en-US"]).length ≤
      (5 : Int).toNat :=
  ⟨by decide,
    (getTopLenses_spec (fun _ => .badProps) {} 5 ["en-US"]).2.1
      (by decide)⟩

end SnapLens
